import Mathlib

/-
Verification of the pymeasure driver collection against its specification.

The development shallowly embeds the Python sources under study:
pure functions become Lean functions, instrument and bus input/output becomes
explicit state passing over event logs, Python exceptions become Except results,
and Python numbers become Int, Nat and Rat (floating point literals such as
1e-5 are modelled by the exact rationals they denote in the source text).
-/

set_option autoImplicit false

namespace Pymeasure

/-- Kinds of Python exception raised by the code under study. Message payloads
are not modelled; the claims depend only on the kind of error raised. -/
inductive PyError where
  | valueError
  | nameError
  | indexError
  | structError
  | notImplementedError
  | keyError
  deriving Repr, DecidableEq

/-- Python str.upper, modelled for the ASCII strings used by these drivers
(Char.toUpper maps the ASCII letters a-z to A-Z and fixes everything else). -/
def pyUpper (s : String) : String :=
  ⟨s.data.map Char.toUpper⟩

/-- Python str.split with a single-character separator: the list of fields
between occurrences of the separator (an empty string yields one empty
field, as in Python). -/
def pySplit (sep : Char) : List Char → List (List Char)
  | [] => [[]]
  | c :: rest =>
    let r := pySplit sep rest
    if c = sep then [] :: r
    else (c :: r.headD []) :: r.tail

/-- Substitute the single percent conversion specifier (such as percent-d,
percent-s or percent-g) occurring in a driver command template by the rendered
argument, as Python percent string formatting does for the one-argument
templates used by these drivers. -/
def substSpec : List Char → List Char → List Char
  | [], _ => []
  | '%' :: _ :: rest, arg => arg ++ rest
  | c :: rest, arg => c :: substSpec rest arg

/-- Format a command template with a single rendered argument. -/
def pyFormat (template : String) (arg : String) : String :=
  ⟨substSpec template.data arg.data⟩

/-- Modelled from the spec: pymeasure.instruments.validators.strict_discrete_set
is imported by every driver under study, but the validators module is not among
the sources; the spec describes property assignment as validate then format then
send, where validation against a declared discrete value set fails for values
outside the set. The validator returns the value unchanged when it is a member
of the declared set and raises ValueError otherwise. -/
def strict_discrete_set {α : Type} [DecidableEq α] (value : α) (values : List α) :
    Except PyError α :=
  if value ∈ values then .ok value else .error .valueError

/-- A settable property descriptor declared with a set-command template, a
strict_discrete_set validator and a discrete value set, as produced by
Instrument.setting or Instrument.control in the drivers under study. The render
field is the rendering Python percent formatting applies to the assigned value
(decimal digits for percent-d, the string itself for percent-s). -/
structure DiscreteSetting (α : Type) where
  set_command : String
  values : List α
  render : α → String

/-- Modelled from the spec: the set path of a property descriptor, namely
validate then format then send. The assigned value is first passed to the
strict_discrete_set validator with the declared value set; only on success is
the set-command template formatted with the value, and the resulting single
command string is the one sent. A validation error is raised before any
formatting or sending happens. -/
def DiscreteSetting.setProp {α : Type} [DecidableEq α]
    (p : DiscreteSetting α) (v : α) : Except PyError String :=
  (strict_discrete_set v p.values).map (fun v' => pyFormat p.set_command (p.render v'))

/-- Modelled from the spec: assignment to a descriptor property, observed on
the wire. The list is the log of command strings sent to the instrument so
far; a successful assignment appends exactly the formatted set command, a
failed validation leaves the log untouched. -/
def DiscreteSetting.setOn {α : Type} [DecidableEq α]
    (p : DiscreteSetting α) (v : α) (sent : List String) :
    Except PyError Unit × List String :=
  match p.setProp v with
  | .ok c => (.ok (), sent ++ [c])
  | .error e => (.error e, sent)

namespace TDK_Lambda_Base

/-- TDK_Lambda_Base.pass_filter (src/pymeasure/instruments/tdk/tdk_base.py,
lines 285-294): set command FILTER percent-d, strict_discrete_set validator,
values 18, 23, 46. -/
def pass_filter : DiscreteSetting Int :=
  { set_command := "FILTER %d", values := [18, 23, 46], render := toString }

/-- TDK_Lambda_Base.remote (src/pymeasure/instruments/tdk/tdk_base.py, lines
139-148): set command RMT percent-s, strict_discrete_set validator, values
LOC, REM, LLO. -/
def remote : DiscreteSetting String :=
  { set_command := "RMT %s", values := ["LOC", "REM", "LLO"], render := id }

end TDK_Lambda_Base

namespace Keithley224

/-- Keithley224.srq_mode (src/pymeasure/instruments/keithley/keithley224.py,
lines 51-58): set command M percent-d X, strict_discrete_set validator, values
0 to 31 inclusive. -/
def srq_mode : DiscreteSetting Int :=
  { set_command := "M%dX", values := (List.range 32).map Int.ofNat, render := toString }

/-- Keithley224.current_range (src/pymeasure/instruments/keithley/keithley224.py,
lines 60-73): set command R percent-d X, strict_discrete_set validator, values
0, 5, 6, 7, 8, 9. -/
def current_range : DiscreteSetting Int :=
  { set_command := "R%dX", values := [0, 5, 6, 7, 8, 9], render := toString }

end Keithley224

namespace LakeShore211

/-- The value mapping of LakeShore211.display
(src/pymeasure/instruments/signal_recovery/lakeshore211.py, lines 83-91):
a map_values control with set command DISPFLD percent-d over the dictionary
from display names to instrument integers. -/
def display_values : List (String × Int) :=
  [("kelvin", 0), ("celsius", 1), ("sensor", 2), ("fahrenheit", 3)]

/-- Modelled from the spec: the set path of a map_values control descriptor
(Instrument.control is not among the sources). The assigned name is looked up
in the values dictionary and the mapped integer is formatted into the set
command; a name outside the dictionary raises KeyError. -/
def display_set (name : String) : Except PyError String :=
  match display_values.lookup name with
  | some n => .ok (pyFormat "DISPFLD %d" (toString n))
  | none => .error .keyError

/-- Modelled from the spec: the get path of a map_values control descriptor.
The integer the instrument returns is mapped back through the inverse of the
values dictionary; an integer with no preimage raises KeyError. -/
def display_get (n : Int) : Except PyError String :=
  match display_values.find? (fun p => p.2 == n) with
  | some p => .ok p.1
  | none => .error .keyError

end LakeShore211

/-- Value of a single hexadecimal digit, as accepted by Python
bytearray.fromhex and int with base 16. -/
def hexDigitVal (c : Char) : Option Nat :=
  if '0' ≤ c ∧ c ≤ '9' then some (c.toNat - '0'.toNat)
  else if 'a' ≤ c ∧ c ≤ 'f' then some (c.toNat - 'a'.toNat + 10)
  else if 'A' ≤ c ∧ c ≤ 'F' then some (c.toNat - 'A'.toNat + 10)
  else none

/-- Python bytearray.fromhex on a string with no spaces: each pair of hex
digits becomes one byte; an odd length or a non-hex character fails. -/
def bytesFromHex : List Char → Option (List Nat)
  | [] => some []
  | [_] => none
  | c1 :: c2 :: rest => do
      let hi ← hexDigitVal c1
      let lo ← hexDigitVal c2
      let bs ← bytesFromHex rest
      pure ((16 * hi + lo) :: bs)

/-- Python int with base 16 on a nonempty string of hex digits. -/
def hexStringToNat? (s : String) : Option Nat :=
  match s.data with
  | [] => none
  | cs => cs.foldl (fun acc c => acc.bind fun a => (hexDigitVal c).map fun d => 16 * a + d)
      (some 0)

namespace FWBell5180_Adapter

/-
Shallow embedding of src/pymeasure/instruments/fwbell/fwbell5180_adapter.py.
USB bulk traffic is recorded in an explicit event log; the data the device
returns for the single bulk read of a transaction is supplied as an explicit
response argument.
-/

/-- One USB bulk transfer performed by the adapter. -/
inductive UsbEvent where
  | bulkOut (endpoint : Nat) (data : List Nat)
  | bulkIn (endpoint : Nat) (maxBytes : Nat)
  deriving Repr, DecidableEq

/-- Command constants in hex to send over USB (source lines 40-54). -/
def IDN_Q : String := "012B1800D07B0000"

def MEASURE_FLUX_Q : String := "012B1000107C0000"

def UNIT_FLUX_Q : String := "012B1000107C0000"

def UNIT_AC_GAUSS : String := "012B12020001B440"

def UNIT_AC_TESLA : String := "012B120201012441"

def UNIT_AC_AM : String := "012B12020201D441"

def UNIT_DC_GAUSS : String := "012B120200007481"

def UNIT_DC_TESLA : String := "012B12020100E480"

def UNIT_DC_AM : String := "012B120202001480"

def AUTO_RANGE : String := "012B200101BED100"

def RANGE_Q : String := "012B1A00B07A0000"

def RANGE_0 : String := "012B19010073C000"

def RANGE_1 : String := "012B190101B30100"

def RANGE_2 : String := "012B190102B24100"

def RESET : String := "012B37020001B84B"

/-- The dictionary of supported commands (source lines 57-73), as an
association list in source order; all keys are distinct, so lookup agrees
with Python dict access. -/
def COMMANDS : List (String × String) :=
  [("*IDN?", IDN_Q),
   (":MEASURE:FLUX?", MEASURE_FLUX_Q),
   (":UNIT:FLUX?", UNIT_FLUX_Q),
   (":UNIT:FLUX:AC:GAUSS", UNIT_AC_GAUSS),
   (":UNIT:FLUX:AC:TESLA", UNIT_AC_TESLA),
   (":UNIT:FLUX:AC:AM", UNIT_AC_AM),
   (":UNIT:FLUX:DC:GAUSS", UNIT_DC_GAUSS),
   (":UNIT:FLUX:DC:TESLA", UNIT_DC_TESLA),
   (":UNIT:FLUX:DC:AM", UNIT_DC_AM),
   (":SENS:FLUX:RANG:AUTO", AUTO_RANGE),
   (":SENS:FLUX:RANG?", RANGE_Q),
   (":SENS:FLUX:RANG 0", RANGE_0),
   (":SENS:FLUX:RANG 1", RANGE_1),
   (":SENS:FLUX:RANG 2", RANGE_2),
   ("*CLS", RESET)]

/-- The supported query commands (source line 75): the keys of COMMANDS that
contain a question mark. -/
def QUERIES : List String :=
  (COMMANDS.map Prod.fst).filter (fun k => '?' ∈ k.data)

/-- FWBell5180_Adapter.write (source lines 131-141): upper-case the command
and look it up in COMMANDS; on a hit, decode the hex payload, perform one USB
bulk write of it to endpoint 0x01 followed by one USB bulk read of read_bytes
bytes from endpoint 0x81, and return the data read (supplied here as the
resp argument); on a miss raise NameError without touching the bus. -/
def write (command : String) (read_bytes : Nat) (resp : List Nat)
    (log : List UsbEvent) : Except PyError (List Nat) × List UsbEvent :=
  match COMMANDS.lookup (pyUpper command) with
  | some hex =>
      match bytesFromHex hex.data with
      | some payload => (.ok resp, log ++ [.bulkOut 1 payload, .bulkIn 129 read_bytes])
      | none => (.error .valueError, log)
  | none => (.error .nameError, log)

/-- FWBell5180_Adapter.read (source lines 143-144): unconditionally raises
NotImplementedError. -/
def read : Except PyError (List Nat) :=
  .error .notImplementedError

/-- Big-endian signed 16-bit value of two bytes, as computed by Python
struct.unpack of format greater-than h; faithful for byte values below 256. -/
def int16BE (b0 b1 : Nat) : Int :=
  let u := 256 * b0 + b1
  if u < 32768 then (u : Int) else (u : Int) - 65536

/-- The scale factor chosen by get_measurement from the byte at offset 7;
the Python float literals 1e-5, 1e-4 and 1e-3 are modelled by exact
rationals. -/
def scaleFactor (scale : Nat) : ℚ :=
  if scale = 0 then 1 / 100000
  else if scale = 1 then 1 / 10000
  else 1 / 1000

/-- FWBell5180_Adapter.get_measurement (source lines 116-129). If the byte at
offset 2 is 16, unpack the bytes at offsets 4 and 5 as a big-endian signed
16-bit integer and multiply it by the scale factor selected by the byte at
offset 7; otherwise raise ValueError. Accessing an offset past the end of
the data raises IndexError, and unpacking a slice that is not exactly two
bytes raises a struct error, in the evaluation order of the source. -/
def get_measurement (out_data : List Nat) : Except PyError ℚ :=
  match out_data.get? 2 with
  | none => .error .indexError
  | some b2 =>
    if b2 = 16 then
      match (out_data.drop 4).take 2 with
      | [b4, b5] =>
          match out_data.get? 7 with
          | some scale => .ok ((int16BE b4 b5 : ℚ) * scaleFactor scale)
          | none => .error .indexError
      | _ => .error .structError
    else .error .valueError

/-- FWBell5180_Adapter.get_range (source lines 112-114): the byte at offset 4. -/
def get_range (out_data : List Nat) : Except PyError Nat :=
  match out_data.get? 4 with
  | some b => .ok b
  | none => .error .indexError

/-- FWBell5180_Adapter.get_units (source lines 98-110): AC when the byte at
offset 9 is nonzero, DC otherwise, then the unit selected by the byte at
offset 6; the source reads offset 9 before offset 6. -/
def get_units (out_data : List Nat) : Except PyError String :=
  match out_data.get? 9 with
  | none => .error .indexError
  | some b9 =>
    match out_data.get? 6 with
    | none => .error .indexError
    | some mode =>
        let prefixPart := if b9 ≠ 0 then "AC:" else "DC:"
        let unitPart := if mode = 0 then "GAUSS" else if mode = 1 then "TESLA" else "AM"
        .ok (prefixPart ++ unitPart)

/-- FWBell5180_Adapter.get_idn (source lines 92-96): the byte at offset 3 is
the length of the identification text starting at offset 4; the text is
decoded (modelled for ASCII bytes) and stripped of NUL characters at both
ends. -/
def get_idn (out_data : List Nat) : Except PyError String :=
  match out_data.get? 3 with
  | none => .error .indexError
  | some len =>
      let response := (out_data.drop 4).take len
      let chars := response.map Char.ofNat
      .ok ⟨(chars.dropWhile (· = Char.ofNat 0)).reverse.dropWhile (· = Char.ofNat 0) |>.reverse⟩

/-- The value an FWBell5180_Adapter query returns: a number for the flux
measurement, a string for units and identification, an integer for the range. -/
inductive FwAnswer where
  | num (q : ℚ)
  | str (s : String)
  | rang (n : Nat)
  deriving Repr, DecidableEq

/-- FWBell5180_Adapter.ask (source lines 146-164): upper-case the command; if
it is one of QUERIES, perform the write transaction and parse the data read
with the parser selected by the command, otherwise raise NameError without
touching the bus. -/
def ask (command : String) (read_bytes : Nat) (resp : List Nat)
    (log : List UsbEvent) : Except PyError FwAnswer × List UsbEvent :=
  let cmd := pyUpper command
  if cmd ∈ QUERIES then
    match write cmd read_bytes resp log with
    | (.ok out_data, log') =>
        if cmd = ":MEASURE:FLUX?" then ((get_measurement out_data).map .num, log')
        else if cmd = ":UNIT:FLUX?" then ((get_units out_data).map .str, log')
        else if cmd = ":SENS:FLUX:RANG?" then ((get_range out_data).map .rang, log')
        else ((get_idn out_data).map .str, log')
    | (.error e, log') => (.error e, log')
  else (.error .nameError, log)

end FWBell5180_Adapter

namespace TDK_Lambda_Base

/-
Shallow embedding of the communication methods of
src/pymeasure/instruments/tdk/tdk_base.py (lines 75-109).
-/

/-- State of the VISA serial link of a TDK Lambda supply: the device reply
function (every command elicits exactly one reply line, an OK confirmation
for non-querying commands), the instrument-to-host read buffer, and the log
of commands the host has sent so far. -/
structure VisaState where
  device : String → String
  buffer : List String
  sent : List String

/-- The pyvisa connection.query primitive (external library): send the
command, upon which the instrument appends its reply line to the read
buffer, then read one line off the front of the buffer. -/
def query (command : String) (s : VisaState) : String × VisaState :=
  let pending := s.buffer ++ [s.device command]
  (pending.headD "",
   { device := s.device, buffer := pending.tail, sent := s.sent ++ [command] })

/-- TDK_Lambda_Base.ask (source lines 99-109): forwards the command to
self.adapter.connection.query and returns its reply. -/
def ask (command : String) (s : VisaState) : String × VisaState :=
  query command s

/-- TDK_Lambda_Base.write (source lines 75-97): runs self.ask on the command
so that the OK confirmation reply is consumed, discards the reply, and
returns None. -/
def write (command : String) (s : VisaState) : Option String × VisaState :=
  (none, (ask command s).2)

/-- The specification reading of TDK_Lambda_Base.write for claim comparison:
ask with the reply discarded, returning None. -/
def write_spec_discard (command : String) (s : VisaState) : Option String × VisaState :=
  let r := ask command s
  (none, r.2)

/-- A concrete link state for evaluating the theorems: a device that answers
OK to everything, an empty read buffer and an empty send log. -/
def okState : VisaState :=
  { device := fun _ => "OK", buffer := [], sent := [] }

end TDK_Lambda_Base

namespace OmegaAdapter

/-
Shallow embedding of src/pymeasure/instruments/omega/adapters.py. Modbus
traffic through the minimalmodbus connection is recorded in an explicit
event log; the value a register read returns is supplied as an explicit
argument.
-/

/-- The data_type field of an OMEGA_COMMANDS entry: float, long or plain
register (the only values occurring in the table). -/
inductive OmegaDataType where
  | F
  | L
  | R
  deriving Repr, DecidableEq

/-- One entry of the OMEGA_COMMANDS register table
(src/pymeasure/instruments/omega/omega_registers.py). -/
structure OmegaRegister where
  data_type : OmegaDataType
  description : String
  read_write : String
  register : Nat
  register_hex : String
  deriving Repr, DecidableEq

/-- One Modbus operation performed through the minimalmodbus connection. -/
inductive ModbusEvent where
  | writeFloat (register : Nat) (value : ℚ)
  | writeLong (register : Nat) (value : Int)
  | writeRegister (register : Nat) (value : Int)
  | readFloat (register : Nat)
  | readLong (register : Nat)
  | readRegister (register : Nat)
  deriving Repr, DecidableEq

/-- Two entries of OMEGA_COMMANDS, taken verbatim from
src/pymeasure/instruments/omega/omega_registers.py. The full table has 347
entries of exactly this shape and the adapter consumes it only through key
lookup and field access, so the adapter functions below are parameterized by
the table. -/
def sampleCommands : List (String × OmegaRegister) :=
  [("CONTROL_SETPOINT",
    { data_type := .F, description := "Setpoint used for PID/Control functions",
      read_write := "RW", register := 624, register_hex := "0x0270" }),
   ("BOOT_LOADER_VERSION",
    { data_type := .L, description := "Boot Loader Version",
      read_write := "R", register := 518, register_hex := "0x0206" })]

/-- OmegaAdapter.valid (source lines 45-56): look the command up in the
command table and check that the requested mode letter occurs in the
read_write field of the entry; an unknown command raises NameError and an
unsupported mode raises ValueError. -/
def valid (commands : List (String × OmegaRegister)) (command : String)
    (mode : Char) : Except PyError OmegaRegister :=
  match commands.lookup command with
  | some reg =>
      if mode ∈ reg.read_write.data then .ok reg
      else .error .valueError
  | none => .error .nameError

/-- Value of a nonempty string of decimal digits. -/
def decDigitsVal? (cs : List Char) : Option Nat :=
  match cs with
  | [] => none
  | _ => cs.foldl
      (fun acc c => acc.bind fun a =>
        if c.isDigit then some (10 * a + (c.toNat - '0'.toNat)) else none)
      (some 0)

/-- Python int on a plain decimal string with an optional sign; other forms
accepted by Python are not used by the code under study. -/
def pyInt? (s : String) : Option Int :=
  match s.data with
  | '-' :: rest => (decDigitsVal? rest).map (fun n => -(n : Int))
  | '+' :: rest => (decDigitsVal? rest).map Int.ofNat
  | cs => (decDigitsVal? cs).map Int.ofNat

/-- Python float on a plain decimal literal with an optional sign and an
optional fractional part, modelled exactly over the rationals; other forms
accepted by Python are not used by the code under study. -/
def pyFloat? (s : String) : Option ℚ :=
  let signBody : ℚ × String :=
    match s.data with
    | '-' :: rest => (-1, ⟨rest⟩)
    | '+' :: rest => (1, ⟨rest⟩)
    | _ => (1, s)
  match pySplit '.' signBody.2.data with
  | [a] => (decDigitsVal? a).map (fun n => signBody.1 * n)
  | [a, b] =>
      match decDigitsVal? a, decDigitsVal? b with
      | some i, some f =>
          some (signBody.1 * ((i : ℚ) + (f : ℚ) / (10 : ℚ) ^ b.length))
      | _, _ => none
  | _ => none

/-- OmegaAdapter.write (source lines 58-72): split the colon-delimited
command:value string, validate the command for write mode, then write the
value to the register of the entry with the Modbus write matching the
data_type of the entry, converting the value string with float or int at
the call. A missing value part raises IndexError before validation and a
non-numeric value raises ValueError after it. -/
def write (commands : List (String × OmegaRegister)) (command_value : String)
    (log : List ModbusEvent) : Except PyError Unit × List ModbusEvent :=
  let parts := pySplit ':' command_value.data
  let command : String := ⟨parts.headD []⟩
  match parts.get? 1 with
  | none => (.error .indexError, log)
  | some value =>
    match valid commands command 'W' with
    | .error e => (.error e, log)
    | .ok reg =>
      match reg.data_type with
      | .F =>
          match pyFloat? ⟨value⟩ with
          | some q => (.ok (), log ++ [.writeFloat reg.register q])
          | none => (.error .valueError, log)
      | .L =>
          match pyInt? ⟨value⟩ with
          | some n => (.ok (), log ++ [.writeLong reg.register n])
          | none => (.error .valueError, log)
      | .R =>
          match pyInt? ⟨value⟩ with
          | some n => (.ok (), log ++ [.writeRegister reg.register n])
          | none => (.error .valueError, log)

/-- OmegaAdapter.ask (source lines 74-89): validate the command for read
mode, then read the register of the entry with the Modbus read matching the
data_type of the entry and return the value (supplied here as the resp
argument). The trailing raise of the source is unreachable for the three
data types occurring in the table. -/
def ask (commands : List (String × OmegaRegister)) (command : String)
    (resp : ℚ) (log : List ModbusEvent) : Except PyError ℚ × List ModbusEvent :=
  match valid commands command 'R' with
  | .error e => (.error e, log)
  | .ok reg =>
    match reg.data_type with
    | .F => (.ok resp, log ++ [.readFloat reg.register])
    | .L => (.ok resp, log ++ [.readLong reg.register])
    | .R => (.ok resp, log ++ [.readRegister reg.register])

end OmegaAdapter

namespace DAQModule

/-
Shallow embedding of DAQModule.convert_address_to_hex_string
(src/pymeasure/instruments/mcc/daq_module_base.py, lines 88-107).
-/

/-- Python hex on a nonnegative integer, without the leading 0x: lowercase
hexadecimal digits. -/
def pyHexDigits (n : Nat) : String :=
  ⟨Nat.toDigits 16 n⟩

/-- Python str.zfill: pad the string with leading zero characters to the
requested width (the strings padded here carry no sign). -/
def zfill (width : Nat) (s : String) : String :=
  if s.length < width then ⟨List.replicate (width - s.length) '0' ++ s.data⟩ else s

/-- DAQModule.convert_address_to_hex_string: validate the address against the
discrete set 0 to 255 with strict_discrete_set, then convert it with hex,
strip the 0x prefix, upper-case the digits and pad to two digits. -/
def convert_address_to_hex_string (address : Int) : Except PyError String :=
  (strict_discrete_set address ((List.range 256).map Int.ofNat)).map
    (fun a => zfill 2 (pyUpper (pyHexDigits a.toNat)))

/-- The claim predicate for C10: the string is exactly two uppercase
hexadecimal digits and parses back in base 16 to the given number. -/
def isTwoUpperHexOf (s : String) (n : Nat) : Prop :=
  s.length = 2 ∧ (∀ c ∈ s.data, c ∈ "0123456789ABCDEF".data) ∧
    hexStringToNat? s = some n

instance (s : String) (n : Nat) : Decidable (isTwoUpperHexOf s n) := by
  unfold isTwoUpperHexOf
  infer_instance

end DAQModule

/-
Theorems. Helper lemmas come first, one theorem per claim after them.
-/

/-- A key absent from the keys of an association list has no lookup value. -/
theorem lookup_none_of_not_mem_keys {β : Type} {l : List (String × β)} {k : String}
    (h : k ∉ l.map Prod.fst) : l.lookup k = none := by
  induction l with
  | nil => rfl
  | cons p t ih =>
    obtain ⟨k', v'⟩ := p
    rw [List.map_cons, List.mem_cons] at h
    push_neg at h
    have hbeq : (k == k') = false := beq_eq_false_iff_ne.mpr h.1
    simp [List.lookup, hbeq, ih h.2]

/-- Every address below 256 converts to its two-digit uppercase hex string. -/
theorem daq_hex_of_lt_256 : ∀ n : Nat, n < 256 →
    DAQModule.isTwoUpperHexOf
      (DAQModule.zfill 2 (pyUpper (DAQModule.pyHexDigits n))) n := by
  set_option maxRecDepth 40000 in decide

/-- C1: for every descriptor-defined settable property with a
strict_discrete_set validator and a declared value set, assigning a value in
the declared set sends exactly the set-command template with the value
formatted into it, in the order validate, then format, then send; in
particular TDK_Lambda_Base.pass_filter at 23 sends FILTER 23 and
Keithley224.current_range at 5 sends R5X. -/
theorem C1_discrete_setting_sends_formatted :
    (∀ (α : Type) [DecidableEq α] (p : DiscreteSetting α) (v : α) (sent : List String),
       v ∈ p.values →
       DiscreteSetting.setOn p v sent =
         (.ok (), sent ++ [pyFormat p.set_command (p.render v)]))
    ∧ TDK_Lambda_Base.pass_filter.setProp 23 = .ok "FILTER 23"
    ∧ Keithley224.current_range.setProp 5 = .ok "R5X" := by
  refine ⟨?_, rfl, rfl⟩
  intro α _ p v sent hv
  unfold DiscreteSetting.setOn DiscreteSetting.setProp strict_discrete_set
  rw [if_pos hv]
  rfl

/-- Witness for C1 at TDK_Lambda_Base.pass_filter and the in-set value 23. -/
theorem C1_witness :
    TDK_Lambda_Base.pass_filter.setOn 23 [] = (.ok (), ["FILTER 23"]) :=
  C1_discrete_setting_sends_formatted.1 Int TDK_Lambda_Base.pass_filter 23 []
    (by decide)

/-- C2: for every descriptor-defined settable property validated by
strict_discrete_set, assigning a value outside the declared value set raises
ValueError during validation and no command string is sent, the error
happening strictly before the format and send steps; in particular
Keithley224.srq_mode rejects 32 and TDK_Lambda_Base.remote rejects ABC. -/
theorem C2_discrete_setting_rejects_outside :
    (∀ (α : Type) [DecidableEq α] (p : DiscreteSetting α) (v : α) (sent : List String),
       v ∉ p.values →
       DiscreteSetting.setOn p v sent = (.error .valueError, sent))
    ∧ Keithley224.srq_mode.setOn 32 [] = (.error .valueError, [])
    ∧ TDK_Lambda_Base.remote.setOn "ABC" [] = (.error .valueError, []) := by
  refine ⟨?_, rfl, rfl⟩
  intro α _ p v sent hv
  unfold DiscreteSetting.setOn DiscreteSetting.setProp strict_discrete_set
  rw [if_neg hv]
  rfl

/-- Witness for C2 at Keithley224.srq_mode and the out-of-set value 32. -/
theorem C2_witness :
    Keithley224.srq_mode.setOn 32 [] = (.error .valueError, []) :=
  C2_discrete_setting_rejects_outside.1 Int Keithley224.srq_mode 32 [] (by decide)

/-- C7: the LakeShore211.display value mapping round-trips: setting any of
the four names sends DISPFLD with the mapped integer, and getting maps the
echoed integer back to the same name. -/
theorem C7_display_round_trip :
    ∀ (name : String) (n : Int), (name, n) ∈ LakeShore211.display_values →
      LakeShore211.display_set name = .ok (pyFormat "DISPFLD %d" (toString n))
      ∧ LakeShore211.display_get n = .ok name := by
  intro name n h
  fin_cases h <;> exact ⟨rfl, rfl⟩

/-- Witness for C7 at the name celsius with mapped integer 1. -/
theorem C7_witness :
    LakeShore211.display_set "celsius" = .ok "DISPFLD 1"
    ∧ LakeShore211.display_get 1 = .ok "celsius" :=
  C7_display_round_trip "celsius" 1 (by decide)

/-- C8: TDK_Lambda_Base.write is ask with the reply discarded: for every
command and link state it equals the discard reading of ask, returns None,
performs exactly one query round-trip, and starting from an empty read
buffer it leaves the buffer empty, so the OK confirmation reply is consumed
and never left behind. -/
theorem C8_write_is_ask_discarded (c : String) (s : TDK_Lambda_Base.VisaState) :
    TDK_Lambda_Base.write c s = TDK_Lambda_Base.write_spec_discard c s
    ∧ (TDK_Lambda_Base.write c s).1 = none
    ∧ (TDK_Lambda_Base.write c s).2.sent = s.sent ++ [c]
    ∧ (s.buffer = [] → (TDK_Lambda_Base.write c s).2.buffer = []) := by
  refine ⟨rfl, rfl, rfl, ?_⟩
  intro hb
  simp [TDK_Lambda_Base.write, TDK_Lambda_Base.ask, TDK_Lambda_Base.query, hb]

/-- Witness for C8 at the command RST and a link state with empty buffer. -/
theorem C8_witness :
    (TDK_Lambda_Base.write "RST" TDK_Lambda_Base.okState).2.buffer = []
    ∧ (TDK_Lambda_Base.write "RST" TDK_Lambda_Base.okState).1 = none :=
  ⟨(C8_write_is_ask_discarded "RST" TDK_Lambda_Base.okState).2.2.2 rfl,
   (C8_write_is_ask_discarded "RST" TDK_Lambda_Base.okState).2.1⟩

/-- C10: for every integer address in 0 to 255,
DAQModule.convert_address_to_hex_string returns a string of exactly two
uppercase hexadecimal digits whose base-16 value equals the address, and for
every integer outside that range it raises the strict_discrete_set
ValueError. -/
theorem C10_address_hex_round_trip :
    (∀ a : Int, 0 ≤ a → a < 256 →
      DAQModule.convert_address_to_hex_string a =
        .ok ((DAQModule.convert_address_to_hex_string a).toOption.getD "")
      ∧ DAQModule.isTwoUpperHexOf
          ((DAQModule.convert_address_to_hex_string a).toOption.getD "") a.toNat)
    ∧ (∀ a : Int, a < 0 ∨ 255 < a →
      DAQModule.convert_address_to_hex_string a = .error .valueError) := by
  constructor
  · intro a h0 h256
    have hmem : a ∈ (List.range 256).map Int.ofNat :=
      List.mem_map.mpr ⟨a.toNat, List.mem_range.mpr (by omega), Int.toNat_of_nonneg h0⟩
    have hok : DAQModule.convert_address_to_hex_string a =
        .ok (DAQModule.zfill 2 (pyUpper (DAQModule.pyHexDigits a.toNat))) := by
      unfold DAQModule.convert_address_to_hex_string strict_discrete_set
      rw [if_pos hmem]
      rfl
    rw [hok]
    exact ⟨rfl, daq_hex_of_lt_256 a.toNat (by omega)⟩
  · intro a ha
    have hmem : a ∉ (List.range 256).map Int.ofNat := by
      intro hmem
      obtain ⟨n, hn, rfl⟩ := List.mem_map.mp hmem
      rw [List.mem_range] at hn
      simp only [Int.ofNat_eq_natCast] at ha
      omega
    unfold DAQModule.convert_address_to_hex_string strict_discrete_set
    rw [if_neg hmem]
    rfl

/-- Witness for C10 at the in-range address 171 and the out-of-range 256. -/
theorem C10_witness :
    (DAQModule.convert_address_to_hex_string 171 =
      .ok ((DAQModule.convert_address_to_hex_string 171).toOption.getD "")
     ∧ DAQModule.isTwoUpperHexOf
        ((DAQModule.convert_address_to_hex_string 171).toOption.getD "")
        (171 : Int).toNat)
    ∧ DAQModule.convert_address_to_hex_string 256 = .error .valueError :=
  ⟨C10_address_hex_round_trip.1 171 (by norm_num) (by norm_num),
   C10_address_hex_round_trip.2 256 (by norm_num)⟩

/-- C4: every one of the 15 command payloads of FWBell5180_Adapter.COMMANDS
decodes to exactly 8 bytes, and a write of any supported command puts exactly
that 8-byte payload on the bus with no framing bytes added, followed by the
single bulk read of the transaction. -/
theorem C4_fixed_length_payloads :
    (∀ p ∈ FWBell5180_Adapter.COMMANDS,
       (bytesFromHex p.2.data).isSome ∧ ((bytesFromHex p.2.data).getD []).length = 8)
    ∧ FWBell5180_Adapter.COMMANDS.length = 15
    ∧ ∀ k : String, k ∈ FWBell5180_Adapter.COMMANDS.map Prod.fst →
        ∀ (rb : Nat) (resp : List Nat) (log : List FWBell5180_Adapter.UsbEvent),
          (FWBell5180_Adapter.write k rb resp log).2 =
            log ++ [.bulkOut 1
                      ((bytesFromHex ((FWBell5180_Adapter.COMMANDS.lookup k).getD "").data).getD []),
                    .bulkIn 129 rb] := by
  refine ⟨by decide, rfl, ?_⟩
  intro k h
  fin_cases h <;> exact fun _ _ _ => rfl

/-- Witness for C4 at the supported command CLS. -/
theorem C4_witness :
    (FWBell5180_Adapter.write "*CLS" 128 [] []).2 =
      [] ++ [.bulkOut 1
               ((bytesFromHex ((FWBell5180_Adapter.COMMANDS.lookup "*CLS").getD "").data).getD []),
             .bulkIn 129 128] :=
  C4_fixed_length_payloads.2.2 "*CLS" (by decide) 128 [] []

/-- C6: a write of any supported command performs exactly one USB bulk write
followed by exactly one USB bulk read and never retransmits: the payload put
on the bus exists independently of the response data and of the whole prior
event log, so it is a function of the command alone. -/
theorem C6_single_transaction (cmd : String) (rb : Nat)
    (h : pyUpper cmd ∈ FWBell5180_Adapter.COMMANDS.map Prod.fst) :
    ∃ payload : List Nat,
      ∀ (resp : List Nat) (log : List FWBell5180_Adapter.UsbEvent),
        FWBell5180_Adapter.write cmd rb resp log =
          (.ok resp, log ++ [.bulkOut 1 payload, .bulkIn 129 rb]) := by
  unfold FWBell5180_Adapter.write
  generalize hk : pyUpper cmd = k at h ⊢
  fin_cases h <;> exact ⟨_, fun _ _ => rfl⟩

/-- Witness for C6 at the lower-case flux measurement query. -/
theorem C6_witness :
    pyUpper ":measure:flux?" ∈ FWBell5180_Adapter.COMMANDS.map Prod.fst
    ∧ ∃ payload : List Nat,
        ∀ (resp : List Nat) (log : List FWBell5180_Adapter.UsbEvent),
          FWBell5180_Adapter.write ":measure:flux?" 128 resp log =
            (.ok resp, log ++ [.bulkOut 1 payload, .bulkIn 129 128]) :=
  ⟨by decide, C6_single_transaction ":measure:flux?" 128 (by decide)⟩

/-- C9: FWBell5180_Adapter command dispatch is case-insensitive and exact.
A write sends a payload exactly when the upper-cased command is a key of
COMMANDS and otherwise raises NameError leaving the bus untouched; an ask
proceeds to the bus and the parser exactly when the upper-cased command is
one of QUERIES (the keys of COMMANDS containing a question mark, computed
below) and a parsed value is returned for a well-formed response, while any
other command raises NameError leaving the bus untouched. -/
theorem C9_command_rejection :
    (∀ (s : String) (rb : Nat) (resp : List Nat) (log : List FWBell5180_Adapter.UsbEvent),
        pyUpper s ∉ FWBell5180_Adapter.COMMANDS.map Prod.fst →
        FWBell5180_Adapter.write s rb resp log = (.error .nameError, log))
    ∧ (∀ s : String, pyUpper s ∈ FWBell5180_Adapter.COMMANDS.map Prod.fst →
        ∃ payload : List Nat,
          ∀ (rb : Nat) (resp : List Nat) (log : List FWBell5180_Adapter.UsbEvent),
            FWBell5180_Adapter.write s rb resp log =
              (.ok resp, log ++ [.bulkOut 1 payload, .bulkIn 129 rb]))
    ∧ (∀ (s : String) (rb : Nat) (resp : List Nat) (log : List FWBell5180_Adapter.UsbEvent),
        pyUpper s ∉ FWBell5180_Adapter.QUERIES →
        FWBell5180_Adapter.ask s rb resp log = (.error .nameError, log))
    ∧ (∀ s : String, pyUpper s ∈ FWBell5180_Adapter.QUERIES →
        (∀ (rb : Nat) (resp : List Nat) (log : List FWBell5180_Adapter.UsbEvent),
           ∃ payload : List Nat,
             (FWBell5180_Adapter.ask s rb resp log).2 =
               log ++ [.bulkOut 1 payload, .bulkIn 129 rb])
        ∧ ∃ (resp : List Nat) (v : FWBell5180_Adapter.FwAnswer),
            ∀ (rb : Nat) (log : List FWBell5180_Adapter.UsbEvent),
              (FWBell5180_Adapter.ask s rb resp log).1 = .ok v)
    ∧ FWBell5180_Adapter.QUERIES =
        ["*IDN?", ":MEASURE:FLUX?", ":UNIT:FLUX?", ":SENS:FLUX:RANG?"]
    ∧ (∀ (rb : Nat) (resp : List Nat) (log : List FWBell5180_Adapter.UsbEvent),
        FWBell5180_Adapter.write "*cls" rb resp log =
          FWBell5180_Adapter.write "*CLS" rb resp log) := by
  refine ⟨?_, ?_, ?_, ?_, rfl, fun _ _ _ => rfl⟩
  · intro s rb resp log h
    unfold FWBell5180_Adapter.write
    rw [lookup_none_of_not_mem_keys h]
  · intro s h
    unfold FWBell5180_Adapter.write
    generalize hk : pyUpper s = k at h ⊢
    fin_cases h <;> exact ⟨_, fun _ _ _ => rfl⟩
  · intro s rb resp log h
    unfold FWBell5180_Adapter.ask
    rw [if_neg h]
  · intro s h
    unfold FWBell5180_Adapter.ask FWBell5180_Adapter.write
    generalize hk : pyUpper s = k at h ⊢
    fin_cases h
    · exact ⟨fun _ _ _ => ⟨_, rfl⟩, [0, 0, 0, 0], _, fun _ _ => rfl⟩
    · exact ⟨fun _ _ _ => ⟨_, rfl⟩, [0, 0, 16, 0, 0, 0, 0, 0], _, fun _ _ => rfl⟩
    · exact ⟨fun _ _ _ => ⟨_, rfl⟩, [0, 0, 0, 0, 0, 0, 0, 0, 0, 0], _, fun _ _ => rfl⟩
    · exact ⟨fun _ _ _ => ⟨_, rfl⟩, [0, 0, 0, 0, 7], _, fun _ _ => rfl⟩

/-- Witness for C9: an unknown command is rejected by write, a supported
non-query command is rejected by ask, and a lower-case supported command is
accepted by write. -/
theorem C9_witness :
    FWBell5180_Adapter.write "XYZZY" 128 [] [] = (.error .nameError, [])
    ∧ FWBell5180_Adapter.ask "*CLS" 128 [] [] = (.error .nameError, [])
    ∧ ∃ payload : List Nat,
        ∀ (rb : Nat) (resp : List Nat) (log : List FWBell5180_Adapter.UsbEvent),
          FWBell5180_Adapter.write "*cls" rb resp log =
            (.ok resp, log ++ [.bulkOut 1 payload, .bulkIn 129 rb]) :=
  ⟨C9_command_rejection.1 "XYZZY" 128 [] [] (by decide),
   C9_command_rejection.2.2.1 "*CLS" 128 [] [] (by decide),
   C9_command_rejection.2.1 "*cls" (by decide)⟩

/-- Counterexample for C3 as stated: FWBell5180_Adapter.read raises
NotImplementedError unconditionally, so there is no input on which read
returns a value rather than raising. -/
theorem C3_read_counterexample :
    FWBell5180_Adapter.read = .error .notImplementedError := rfl

/-- C3 as amended: the two adapter classes defined in the repository expose
usable write and ask operations over their interfaces, exercised here on the
FW Bell USB commands and on the Omega Modbus registers, but read is not
usable on every adapter: FWBell5180_Adapter.read raises NotImplementedError
unconditionally (and OmegaAdapter defines no read of its own). -/
theorem C3_adapters_amended :
    FWBell5180_Adapter.read = .error .notImplementedError
    ∧ (∀ (rb : Nat) (resp : List Nat) (log : List FWBell5180_Adapter.UsbEvent),
        FWBell5180_Adapter.write "*CLS" rb resp log =
          (.ok resp, log ++ [.bulkOut 1 [1, 43, 55, 2, 0, 1, 184, 75], .bulkIn 129 rb]))
    ∧ (∀ (rb : Nat) (log : List FWBell5180_Adapter.UsbEvent),
        FWBell5180_Adapter.ask ":SENS:FLUX:RANG?" rb [0, 0, 0, 0, 7] log =
          (.ok (.rang 7), log ++ [.bulkOut 1 [1, 43, 26, 0, 176, 122, 0, 0], .bulkIn 129 rb]))
    ∧ OmegaAdapter.write OmegaAdapter.sampleCommands "CONTROL_SETPOINT:12.5" [] =
        (.ok (), [.writeFloat 624 (25 / 2)])
    ∧ (∀ (q : ℚ) (mlog : List OmegaAdapter.ModbusEvent),
        OmegaAdapter.ask OmegaAdapter.sampleCommands "BOOT_LOADER_VERSION" q mlog =
          (.ok q, mlog ++ [.readLong 518])) := by
  refine ⟨rfl, fun _ _ _ => rfl, fun _ _ => rfl, ?_, fun _ _ => rfl⟩
  have h : OmegaAdapter.write OmegaAdapter.sampleCommands "CONTROL_SETPOINT:12.5" [] =
      (.ok (), [.writeFloat 624
        ((1 : ℚ) * (((12 : ℕ) : ℚ) + ((5 : ℕ) : ℚ) / (10 : ℚ) ^ (1 : ℕ)))]) := rfl
  rw [h]
  norm_num

/-- Counterexample for C5 as stated: a 5-byte response whose byte at offset 2
equals 16, on which the claim predicts a returned value formed from the bytes
at offsets 4 and 5, while get_measurement raises a struct error because the
slice at offsets 4 to 5 holds a single byte. -/
theorem C5_short_response_counterexample :
    [0, 0, 16, 0, 0].get? 2 = some 16
    ∧ FWBell5180_Adapter.get_measurement [0, 0, 16, 0, 0] = .error .structError :=
  ⟨rfl, rfl⟩

/-- C5 as amended, for responses of at least 8 bytes: ask of the flux query
parses the response at fixed offsets through get_measurement, which returns
the big-endian signed 16-bit integer formed from the bytes at offsets 4 and 5
multiplied by 1e-5, 1e-4 or 1e-3 according to the byte at offset 7 when the
byte at offset 2 equals 16, and raises ValueError otherwise. -/
theorem C5_measurement_parse_amended :
    (∀ (b0 b1 b2 b3 b4 b5 b6 b7 : Nat) (rest : List Nat), b4 < 256 → b5 < 256 →
      (b2 = 16 →
        FWBell5180_Adapter.get_measurement
            (b0 :: b1 :: b2 :: b3 :: b4 :: b5 :: b6 :: b7 :: rest) =
          .ok ((if 256 * b4 + b5 < 32768 then ((256 * b4 + b5 : Nat) : ℚ)
                else ((256 * b4 + b5 : Nat) : ℚ) - 65536) *
               (if b7 = 0 then 1 / 100000 else if b7 = 1 then 1 / 10000 else 1 / 1000)))
      ∧ (b2 ≠ 16 →
        FWBell5180_Adapter.get_measurement
            (b0 :: b1 :: b2 :: b3 :: b4 :: b5 :: b6 :: b7 :: rest) =
          .error .valueError))
    ∧ (∀ (rb : Nat) (resp : List Nat) (log : List FWBell5180_Adapter.UsbEvent),
        FWBell5180_Adapter.ask ":MEASURE:FLUX?" rb resp log =
          ((FWBell5180_Adapter.get_measurement resp).map .num,
           log ++ [.bulkOut 1 [1, 43, 16, 0, 16, 124, 0, 0], .bulkIn 129 rb])) := by
  refine ⟨?_, fun _ _ _ => rfl⟩
  intro b0 b1 b2 b3 b4 b5 b6 b7 rest hb4 hb5
  constructor
  · intro hb2
    subst hb2
    have hred : FWBell5180_Adapter.get_measurement
        (b0 :: b1 :: 16 :: b3 :: b4 :: b5 :: b6 :: b7 :: rest) =
        .ok ((FWBell5180_Adapter.int16BE b4 b5 : ℚ) * FWBell5180_Adapter.scaleFactor b7) := rfl
    rw [hred]
    congr 1
    simp only [FWBell5180_Adapter.int16BE, FWBell5180_Adapter.scaleFactor]
    split_ifs <;> push_cast <;> ring
  · intro hb2
    simp [FWBell5180_Adapter.get_measurement, hb2]

/-- Witness for C5 as amended, at an 8-byte response carrying value 258 and
scale code 1 and at an 8-byte response with a rejected type byte. -/
theorem C5_measurement_witness :
    FWBell5180_Adapter.get_measurement [1, 43, 16, 0, 1, 2, 0, 1] =
      .ok ((if 256 * 1 + 2 < 32768 then ((256 * 1 + 2 : Nat) : ℚ)
            else ((256 * 1 + 2 : Nat) : ℚ) - 65536) *
           (if (1 : Nat) = 0 then 1 / 100000
            else if (1 : Nat) = 1 then 1 / 10000 else 1 / 1000))
    ∧ FWBell5180_Adapter.get_measurement [0, 0, 0, 0, 0, 0, 0, 0] = .error .valueError :=
  ⟨(C5_measurement_parse_amended.1 1 43 16 0 1 2 0 1 [] (by norm_num) (by norm_num)).1 rfl,
   (C5_measurement_parse_amended.1 0 0 0 0 0 0 0 0 [] (by norm_num) (by norm_num)).2
     (by norm_num)⟩

end Pymeasure
